import Mathlib

/-!
Shallow embedding of the athlete-fatigue flagging pipeline (`part4_flags.py`).

Modelling conventions:
* Numeric measurement values are rationals (`ℚ`); the script's float arithmetic
  on thresholds `0.10`, `0.15`, `0.07` and medians/means of data values is
  modelled exactly over `ℚ`.
* Timestamps are modelled as ISO-8601 date strings; the script parses them to
  datetimes and re-emits the date part (`.dt.date.astype(str)`), which is the
  identity on such strings, so `last_test_date` is the stored string.
* A raw `value` cell is either numeric or non-numeric text; `pd.to_numeric`
  with coercion followed by `dropna` becomes `to_numeric : RawValue → Option ℚ`
  and a `filterMap`.
* The script is straight-line; the one fallible point after loading is the
  summary-table construction, which reads the name `flagged_out` that is only
  assigned inside the `if len(flagged) > 0` branch.  Reading an unassigned
  name raises `NameError`, modelled as `Except.error`.
-/

namespace Part4

/-- Metric name constant `METRIC_MRSI = 'mRSI'`. -/
def METRIC_MRSI : String := "mRSI"

/-- Metric name constant `METRIC_JH = 'Jump Height(m)'`. -/
def METRIC_JH : String := "Jump Height(m)"

/-- Metric name constant `METRIC_PNI = 'Propulsive Net Impulse(N.s)'`. -/
def METRIC_PNI : String := "Propulsive Net Impulse(N.s)"

/-- Threshold 1: `MRSI_BASELINE_DROP_THRESHOLD = 0.10`. -/
def MRSI_BASELINE_DROP_THRESHOLD : ℚ := 10/100

/-- Threshold 2: `MRSI_TEAM_DEVIATION_THRESHOLD = 0.15`. -/
def MRSI_TEAM_DEVIATION_THRESHOLD : ℚ := 15/100

/-- Threshold 3: `JH_BASELINE_DROP_THRESHOLD = 0.07`. -/
def JH_BASELINE_DROP_THRESHOLD : ℚ := 7/100

/-- Threshold 4: `PNI_BASELINE_DROP_THRESHOLD = 0.07`. -/
def PNI_BASELINE_DROP_THRESHOLD : ℚ := 7/100

/-- A raw `value` cell from the store: numeric, or non-numeric text such as
`"N/A"`. -/
inductive RawValue where
  | num (q : ℚ)
  | txt (s : String)
deriving DecidableEq, Repr

/-- One raw row `playername, team, timestamp, metric, value` as returned by the
bulk read (rows with SQL NULL values are already excluded by the query's
`value IS NOT NULL`). -/
structure RawRecord where
  playername : String
  team : String
  timestamp : String
  metric : String
  value : RawValue
deriving DecidableEq, Repr

/-- A normalized observation: the same row with a successfully parsed numeric
value. -/
structure Obs where
  playername : String
  team : String
  timestamp : String
  metric : String
  value : ℚ
deriving DecidableEq, Repr

/-- Value coercion `pd.to_numeric(df["value"], errors="coerce")`: numeric
cells parse, text cells coerce to NaN (here `none`). -/
def to_numeric : RawValue → Option ℚ
  | .num q => some q
  | .txt _ => none

/-- The cleaning step (lines 120–124): coerce `value`, drop rows whose value
failed conversion.  Timestamps are modelled as already-present date strings. -/
def normalize (rows : List RawRecord) : List Obs :=
  rows.filterMap fun r =>
    (to_numeric r.value).map fun q =>
      { playername := r.playername, team := r.team, timestamp := r.timestamp,
        metric := r.metric, value := q }

/-- Statistical median as computed by pandas: sort, take the middle element for
odd length, the average of the two middle elements for even length; undefined
(`none`) for an empty list. -/
def median (xs : List ℚ) : Option ℚ :=
  let s := List.insertionSort (· ≤ ·) xs
  let n := s.length
  if n = 0 then none
  else if n % 2 = 1 then s[n / 2]?
  else (s[n / 2 - 1]?).bind fun a => (s[n / 2]?).map fun b => (a + b) / 2

/-- All values of athlete `p` for metric `m` in the working set (the cell list
behind the `pivot_table(index='playername', columns='metric')` aggregation). -/
def athlete_metric_values (obs : List Obs) (p m : String) : List ℚ :=
  (obs.filter fun o => o.playername == p && o.metric == m).map (·.value)

/-- Personal baseline (lines 145–150): per-athlete, per-metric median.  `none`
when the athlete has no observation of the metric (absent pivot cell / NaN
after the left merge). -/
def baseline (obs : List Obs) (p m : String) : Option ℚ :=
  median (athlete_metric_values obs p m)

/-- All values of metric `m` in the working set, across every athlete and
team. -/
def metric_values (obs : List Obs) (m : String) : List ℚ :=
  (obs.filter fun o => o.metric == m).map (·.value)

/-- Guard of the shape `is_mrsi.sum() > 0`: does any observation of metric `m`
exist? -/
def has_metric (obs : List Obs) (m : String) : Bool :=
  obs.any fun o => o.metric == m

/-- Team average mRSI (lines 173–177): mean of `df[is_mrsi]['value']`, i.e. of
all mRSI observations in the entire working set; `None` when there are no mRSI
observations. -/
def team_avg_mRSI (obs : List Obs) : Option ℚ :=
  let vs := metric_values obs METRIC_MRSI
  if vs.length = 0 then none
  else some (vs.sum / (vs.length : ℚ))

/-- Threshold 1 (lines 187–196): mRSI baseline-drop flag for one observation.
The guard `COL_BASELINE_MRSI in df.columns and is_mrsi.sum() > 0` holds exactly
when some mRSI observation exists.  A NaN baseline makes the pandas comparison
false, matching the `none` branch. -/
def mRSI_flag (obs : List Obs) (o : Obs) : Bool :=
  if has_metric obs METRIC_MRSI then
    o.metric == METRIC_MRSI &&
      (match baseline obs o.playername METRIC_MRSI with
       | some b => decide (o.value < (1 - MRSI_BASELINE_DROP_THRESHOLD) * b)
       | none => false)
  else false

/-- Threshold 2 (lines 200–212): mRSI team-deviation flag for one
observation. -/
def mRSI_team_flag (obs : List Obs) (o : Obs) : Bool :=
  match team_avg_mRSI obs with
  | some avg =>
      o.metric == METRIC_MRSI &&
        (decide (o.value < (1 - MRSI_TEAM_DEVIATION_THRESHOLD) * avg) ||
         decide (o.value > (1 + MRSI_TEAM_DEVIATION_THRESHOLD) * avg))
  | none => false

/-- Threshold 3 (lines 215–224): Jump Height baseline-drop flag. -/
def jh_flag (obs : List Obs) (o : Obs) : Bool :=
  if has_metric obs METRIC_JH then
    o.metric == METRIC_JH &&
      (match baseline obs o.playername METRIC_JH with
       | some b => decide (o.value < (1 - JH_BASELINE_DROP_THRESHOLD) * b)
       | none => false)
  else false

/-- Threshold 4 (lines 227–236): Propulsive Net Impulse baseline-drop flag. -/
def pni_flag (obs : List Obs) (o : Obs) : Bool :=
  if has_metric obs METRIC_PNI then
    o.metric == METRIC_PNI &&
      (match baseline obs o.playername METRIC_PNI with
       | some b => decide (o.value < (1 - PNI_BASELINE_DROP_THRESHOLD) * b)
       | none => false)
  else false

/-- Reason text of Threshold 1, the f-string of line 252 with the constant
threshold substituted. -/
def MRSI_REASON : String := "mRSI drop ≥10% vs baseline"

/-- Reason text of Threshold 2 (line 254). -/
def MRSI_TEAM_REASON : String := "mRSI >15% from team average"

/-- Reason text of Threshold 3 (line 256). -/
def JH_REASON : String := "Jump Height(m) drop ≥7% vs baseline"

/-- Reason text of Threshold 4 (line 258). -/
def PNI_REASON : String := "Propulsive Net Impulse(N.s) drop ≥7% vs baseline"

/-- The `reasons` list accumulated by `build_flag_reason`, in the fixed rule
order of the four `if` statements. -/
def reason_list (f1 f2 f3 f4 : Bool) : List String :=
  (if f1 then [MRSI_REASON] else []) ++
  (if f2 then [MRSI_TEAM_REASON] else []) ++
  (if f3 then [JH_REASON] else []) ++
  (if f4 then [PNI_REASON] else [])

/-- Reason synthesis `build_flag_reason` (lines 245–259): semicolon-separated
concatenation of the triggered reasons. -/
def build_flag_reason (f1 f2 f3 f4 : Bool) : String :=
  String.intercalate "; " (reason_list f1 f2 f3 f4)

/-- Row selection predicate `df[flag_cols].sum(axis=1) > 0`: at least one of
the four flag columns is 1. -/
def any_flag (obs : List Obs) (o : Obs) : Bool :=
  mRSI_flag obs o || mRSI_team_flag obs o || jh_flag obs o || pni_flag obs o

/-- Line 262: keep only the rows where at least one flag was triggered. -/
def flagged (obs : List Obs) : List Obs :=
  obs.filter (any_flag obs)

/-- The `flag_reason` column of a flagged row (line 266). -/
def flag_reason (obs : List Obs) (o : Obs) : String :=
  build_flag_reason (mRSI_flag obs o) (mRSI_team_flag obs o)
    (jh_flag obs o) (pni_flag obs o)

/-- One output row of `part4_flagged_athletes.csv`. -/
structure OutRow where
  playername : String
  team : String
  flag_reason : String
  metric_value : ℚ
  last_test_date : String
deriving DecidableEq, Repr

/-- Projection of a flagged observation to its output row (lines 269–272):
`metric_value` is the observation's value and `last_test_date` its date
string. -/
def out_row (obs : List Obs) (o : Obs) : OutRow :=
  { playername := o.playername, team := o.team,
    flag_reason := flag_reason obs o,
    metric_value := o.value,
    last_test_date := o.timestamp }

/-- Helper for `drop_duplicates()`, which keeps the first occurrence of each
full row; `seen` accumulates the rows already emitted. -/
def drop_duplicates_from (seen : List OutRow) : List OutRow → List OutRow
  | [] => []
  | x :: xs =>
      if x ∈ seen then drop_duplicates_from seen xs
      else x :: drop_duplicates_from (x :: seen) xs

/-- Deduplication `drop_duplicates()` on the output rows (line 272). -/
def drop_duplicates (rows : List OutRow) : List OutRow :=
  drop_duplicates_from [] rows

/-- The sort key of `sort_values(['playername', 'last_test_date'])`:
lexicographic on athlete name, then date string. -/
def rowLE (a b : OutRow) : Prop :=
  a.playername < b.playername ∨
    (a.playername = b.playername ∧ a.last_test_date ≤ b.last_test_date)

instance : DecidableRel rowLE := fun a b => by
  unfold rowLE
  infer_instance

instance : IsTotal OutRow rowLE := by
  constructor
  intro a b
  unfold rowLE
  rcases lt_trichotomy a.playername b.playername with h | h | h
  · exact Or.inl (Or.inl h)
  · rcases le_total a.last_test_date b.last_test_date with h2 | h2
    · exact Or.inl (Or.inr ⟨h, h2⟩)
    · exact Or.inr (Or.inr ⟨h.symm, h2⟩)
  · exact Or.inr (Or.inl h)

instance : IsTrans OutRow rowLE := by
  constructor
  intro a b c hab hbc
  unfold rowLE at *
  rcases hab with h1 | ⟨h1, h1d⟩
  · rcases hbc with h2 | ⟨h2, _⟩
    · exact Or.inl (h1.trans h2)
    · exact Or.inl (h2 ▸ h1)
  · rcases hbc with h2 | ⟨h2, h2d⟩
    · exact Or.inl (h1 ▸ h2)
    · exact Or.inr ⟨h1.trans h2, h1d.trans h2d⟩

/-- Sorting step `sort_values(['playername', 'last_test_date'])` (line 275):
a stable sort on the two-column key. -/
def sort_rows (rows : List OutRow) : List OutRow :=
  List.insertionSort rowLE rows

/-- The final flagged-record table as written to the CSV: project, drop exact
duplicates, sort. -/
def flagged_out (obs : List Obs) : List OutRow :=
  sort_rows (drop_duplicates ((flagged obs).map (out_row obs)))

/-- The run's outputs: the flagged-record rows and Table 2's six counts
(per-rule flag totals, total flagged rows, unique flagged athletes). -/
structure RunOutput where
  rows : List OutRow
  table2 : List Nat
deriving DecidableEq, Repr

/-- The script body after normalization (lines 262–342).  When no row is
flagged, `flagged_out` is never assigned (it is only assigned inside the
`if len(flagged) > 0` branch) but Table 2 reads it unconditionally, so the
script raises `NameError` while building Table 2. -/
def run_normalized (obs : List Obs) : Except String RunOutput :=
  let fl := flagged obs
  if fl.isEmpty then
    Except.error "NameError: name flagged_out is not defined"
  else
    let rows := flagged_out obs
    Except.ok
      { rows := rows,
        table2 :=
          [ fl.countP fun o => mRSI_flag obs o,
            fl.countP fun o => mRSI_team_flag obs o,
            fl.countP fun o => jh_flag obs o,
            fl.countP fun o => pni_flag obs o,
            rows.length,
            ((rows.map (·.playername)).dedup).length ] }

/-- The whole pipeline from raw store rows: normalize, then flag and report. -/
def pipeline (raw : List RawRecord) : Except String RunOutput :=
  run_normalized (normalize raw)

/-- The store-connection lifecycle (lines 101–113): `create_engine`, one bulk
`read_sql`, then `engine.dispose()`, straight-line with no `try`/`finally` and
no context manager.  `read_result` is the outcome of the bulk read; the
returned boolean records whether the `engine.dispose()` line was reached: a
read exception propagates before it. -/
def load_and_dispose (read_result : Except String (List RawRecord)) :
    Except String (List RawRecord) × Bool :=
  match read_result with
  | Except.ok rows => (Except.ok rows, true)
  | Except.error e => (Except.error e, false)

/-- Mean of all mRSI observations in the entire working set, every athlete and
every team included — the statistic the spec describes for the team
reference. -/
def mean_all_mRSI (obs : List Obs) : ℚ :=
  (metric_values obs METRIC_MRSI).sum / ((metric_values obs METRIC_MRSI).length : ℚ)

/-! Concrete inputs used to exercise the pipeline. -/

/-- Scenario A of the spec: athlete A, two mRSI tests, 0.50 then 0.40. -/
def scenarioA : List RawRecord :=
  [ { playername := "A", team := "T1", timestamp := "2024-01-01",
      metric := METRIC_MRSI, value := .num (50/100) },
    { playername := "A", team := "T1", timestamp := "2024-02-01",
      metric := METRIC_MRSI, value := .num (40/100) } ]

/-- The normalized 0.40 observation of scenario A. -/
def obsA40 : Obs :=
  { playername := "A", team := "T1", timestamp := "2024-02-01",
    metric := METRIC_MRSI, value := 2/5 }

/-- The normalized 0.50 observation of scenario A. -/
def obsA50 : Obs :=
  { playername := "A", team := "T1", timestamp := "2024-01-01",
    metric := METRIC_MRSI, value := 1/2 }

/-- The run output the script produces on scenario A. -/
def outA : RunOutput :=
  { rows := [ { playername := "A", team := "T1",
                flag_reason := "mRSI drop ≥10% vs baseline",
                metric_value := 2/5, last_test_date := "2024-02-01" } ],
    table2 := [1, 0, 0, 0, 1, 1] }

/-- A one-record input on which no rule fires: a single mRSI test equals its
own baseline and the team mean. -/
def quietInput : List RawRecord :=
  [ { playername := "A", team := "T1", timestamp := "2024-01-01",
      metric := METRIC_MRSI, value := .num (1/2) } ]

/-- A one-record input with no Jump Height observations at all and no firing
rule. -/
def noJHInput : List RawRecord :=
  [ { playername := "B", team := "T2", timestamp := "2024-03-05",
      metric := METRIC_MRSI, value := .num (3/5) } ]

/-- A record whose value cell is the non-numeric text "N/A" (scenario C). -/
def badRecord : RawRecord :=
  { playername := "A", team := "T1", timestamp := "2024-01-15",
    metric := METRIC_MRSI, value := .txt "N/A" }

/-- A working set holding a single observation. -/
def soloObs : Obs :=
  { playername := "C", team := "T3", timestamp := "2024-05-01",
    metric := METRIC_MRSI, value := 1/2 }

/-! Helper lemmas. -/

/-- The median of a one-element list is its element. -/
theorem median_singleton (v : ℚ) : median [v] = some v := by
  with_unfolding_all rfl

/-- If `o` is an observation of metric `m` in the working set, the metric is
present. -/
theorem has_metric_of_mem {obs : List Obs} {o : Obs} {m : String}
    (ho : o ∈ obs) (hm : o.metric = m) : has_metric obs m = true := by
  rw [has_metric, List.any_eq_true]
  exact ⟨o, ho, by simp [hm]⟩

/-- If `o` is an observation of metric `m` in the working set, its value is
among the metric's values. -/
theorem mem_metric_values {obs : List Obs} {o : Obs} {m : String}
    (ho : o ∈ obs) (hm : o.metric = m) : o.value ∈ metric_values obs m := by
  rw [metric_values]
  exact List.mem_map_of_mem _ (List.mem_filter.mpr ⟨ho, by simp [hm]⟩)

/-- A value is never strictly below `(1 - t)` times itself when the value and
the threshold are non-negative. -/
theorem not_lt_one_sub_mul_self (v t : ℚ) (h0 : 0 ≤ v) (ht : 0 ≤ t) :
    ¬ v < (1 - t) * v := by nlinarith

/-- Shape facts about the reason list, uniformly in the four flag bits: no
duplicates, and each description present exactly when its rule fired; the
joined string is non-empty when some rule fired. -/
theorem reason_list_facts : ∀ f1 f2 f3 f4 : Bool,
    (reason_list f1 f2 f3 f4).Nodup ∧
    (MRSI_REASON ∈ reason_list f1 f2 f3 f4 ↔ f1 = true) ∧
    (MRSI_TEAM_REASON ∈ reason_list f1 f2 f3 f4 ↔ f2 = true) ∧
    (JH_REASON ∈ reason_list f1 f2 f3 f4 ↔ f3 = true) ∧
    (PNI_REASON ∈ reason_list f1 f2 f3 f4 ↔ f4 = true) ∧
    ((f1 || f2 || f3 || f4) = true →
      String.intercalate "; " (reason_list f1 f2 f3 f4) ≠ "") := by
  decide

/-- Deduplication is sound: the result has no duplicates and avoids the
accumulator. -/
theorem drop_duplicates_from_sound (l : List OutRow) : ∀ seen : List OutRow,
    (drop_duplicates_from seen l).Nodup ∧
    ∀ x ∈ drop_duplicates_from seen l, x ∉ seen := by
  induction l with
  | nil => intro seen; simp [drop_duplicates_from]
  | cons x xs ih =>
      intro seen
      by_cases hx : x ∈ seen
      · rw [drop_duplicates_from, if_pos hx]
        exact ih seen
      · rw [drop_duplicates_from, if_neg hx]
        obtain ⟨hnd, hnotin⟩ := ih (x :: seen)
        refine ⟨List.nodup_cons.mpr ⟨fun hmem => hnotin x hmem (List.mem_cons_self x seen), hnd⟩, ?_⟩
        intro y hy
        rcases List.mem_cons.mp hy with rfl | hy2
        · exact hx
        · exact fun hseen => hnotin y hy2 (List.mem_cons_of_mem x hseen)

/-- The deduplicated output row list has no duplicates. -/
theorem drop_duplicates_nodup (l : List OutRow) : (drop_duplicates l).Nodup :=
  (drop_duplicates_from_sound l []).1

/-! Claim theorems. -/

/-- C1: on an input where no rule fires on any normalized observation, the
claim says the run completes and returns an empty flagged list with both
summary tables.  The script instead raises `NameError` after flag evaluation:
`flagged_out` is assigned only inside the `if len(flagged) > 0` branch, yet
Table 2 reads it unconditionally.  Demonstrated on a one-record input whose
single observation triggers no rule. -/
theorem no_flag_run_raises_name_error :
    flagged (normalize quietInput) = [] ∧
    pipeline quietInput = Except.error "NameError: name flagged_out is not defined" := by
  constructor <;> with_unfolding_all rfl

/-- C3: on scenario A the personal baseline for A/mRSI is
median(0.50, 0.40) = 0.45, the 0.40 observation is flagged by the
personal-baseline drop rule (0.40 < 0.9 × 0.45), and the 0.50 observation is
flagged by no rule. -/
theorem scenarioA_expected_flags :
    normalize scenarioA = [obsA50, obsA40] ∧
    baseline (normalize scenarioA) "A" METRIC_MRSI = some (9/20) ∧
    mRSI_flag (normalize scenarioA) obsA40 = true ∧
    any_flag (normalize scenarioA) obsA50 = false := by
  refine ⟨?_, ?_, ?_, ?_⟩ <;> with_unfolding_all decide

/-- C7: with zero Jump Height observations in the working set, the Jump
Height rule takes its skip branch and contributes no flag (shown on the one
observation present), and no reason belonging to Jump Height can appear; but
the claim's final part fails: because no rule fires on this input either, the
run crashes with a `NameError` instead of completing. -/
theorem missing_metric_skipped_but_run_crashes :
    normalize noJHInput = [⟨"B", "T2", "2024-03-05", METRIC_MRSI, 3/5⟩] ∧
    has_metric (normalize noJHInput) METRIC_JH = false ∧
    jh_flag (normalize noJHInput) ⟨"B", "T2", "2024-03-05", METRIC_MRSI, 3/5⟩ = false ∧
    pipeline noJHInput = Except.error "NameError: name flagged_out is not defined" := by
  refine ⟨?_, ?_, ?_, ?_⟩
  · with_unfolding_all decide
  · with_unfolding_all decide
  · with_unfolding_all decide
  · with_unfolding_all rfl

/-- C9 counterexample: the claim says the store connection is released on
every exit path, including a failing bulk read.  The script is straight-line
with no `try`/`finally`: when the read raises, `engine.dispose()` on line 113
is never reached, so the connection is not released on the error path. -/
theorem connection_not_released_on_failed_read :
    (load_and_dispose (Except.error "connection failure")).2 = false := rfl

/-- C9 amended: the connection is acquired once and released exactly when the
bulk read succeeds; a failing read propagates its error without reaching the
release. -/
theorem dispose_iff_read_succeeded (r : Except String (List RawRecord)) :
    ((load_and_dispose r).2 = true ↔ ∃ rows, r = Except.ok rows) ∧
    (load_and_dispose r).1 = r := by
  cases r with
  | ok rows => simp [load_and_dispose]
  | error e => simp [load_and_dispose]

/-- C2: a normalized mRSI observation whose athlete has a personal mRSI
baseline is flagged by the personal-baseline drop rule exactly when its value
is below 0.9 times the athlete's median mRSI. -/
theorem mRSI_baseline_rule_iff (obs : List Obs) (o : Obs) (ho : o ∈ obs)
    (hm : o.metric = METRIC_MRSI) (b : ℚ)
    (hb : baseline obs o.playername METRIC_MRSI = some b) :
    mRSI_flag obs o = true ↔ o.value < (9/10) * b := by
  have hhm : has_metric obs METRIC_MRSI = true := has_metric_of_mem ho hm
  rw [mRSI_flag, if_pos hhm, hb]
  simp only [hm, beq_self_eq_true, Bool.true_and, decide_eq_true_eq]
  rw [MRSI_BASELINE_DROP_THRESHOLD]
  norm_num

/-- Witness for C2: the 0.40 observation of scenario A, with baseline 0.45. -/
theorem mRSI_baseline_rule_iff_witness :
    obsA40 ∈ normalize scenarioA ∧
    obsA40.metric = METRIC_MRSI ∧
    baseline (normalize scenarioA) obsA40.playername METRIC_MRSI = some (9/20) ∧
    (mRSI_flag (normalize scenarioA) obsA40 = true ↔ obsA40.value < (9/10) * (9/20)) :=
  ⟨by with_unfolding_all decide, rfl, by with_unfolding_all decide,
    mRSI_baseline_rule_iff (normalize scenarioA) obsA40
      (by with_unfolding_all decide) rfl (9/20) (by with_unfolding_all decide)⟩

/-- C4: the team reference equals the arithmetic mean of all normalized mRSI
values across the entire working set, and a normalized mRSI observation is
flagged by the team-deviation rule exactly when its value is below 0.85 times
or above 1.15 times that mean. -/
theorem team_deviation_rule_iff (obs : List Obs) (o : Obs) (ho : o ∈ obs)
    (hm : o.metric = METRIC_MRSI) :
    team_avg_mRSI obs = some (mean_all_mRSI obs) ∧
    (mRSI_team_flag obs o = true ↔
      (o.value < (17/20) * mean_all_mRSI obs ∨
       o.value > (23/20) * mean_all_mRSI obs)) := by
  have hmem : o.value ∈ metric_values obs METRIC_MRSI := mem_metric_values ho hm
  have hne : (metric_values obs METRIC_MRSI).length ≠ 0 :=
    List.length_pos.mpr (List.ne_nil_of_mem hmem) |>.ne'
  have havg : team_avg_mRSI obs = some (mean_all_mRSI obs) := by
    rw [team_avg_mRSI, mean_all_mRSI, if_neg hne]
  refine ⟨havg, ?_⟩
  rw [mRSI_team_flag, havg]
  simp only [hm, beq_self_eq_true, Bool.true_and, Bool.or_eq_true, decide_eq_true_eq]
  rw [MRSI_TEAM_DEVIATION_THRESHOLD]
  constructor <;> rintro (h | h)
  · exact Or.inl (by linarith)
  · exact Or.inr (by linarith)
  · exact Or.inl (by linarith)
  · exact Or.inr (by linarith)

/-- Witness for C4: the 0.40 observation of scenario A; the global mRSI mean
is 0.45 and the observation stays inside the ±15 % band. -/
theorem team_deviation_rule_iff_witness :
    obsA40 ∈ normalize scenarioA ∧
    obsA40.metric = METRIC_MRSI ∧
    (team_avg_mRSI (normalize scenarioA) = some (mean_all_mRSI (normalize scenarioA)) ∧
     (mRSI_team_flag (normalize scenarioA) obsA40 = true ↔
       (obsA40.value < (17/20) * mean_all_mRSI (normalize scenarioA) ∨
        obsA40.value > (23/20) * mean_all_mRSI (normalize scenarioA)))) :=
  ⟨by with_unfolding_all decide, rfl,
    team_deviation_rule_iff (normalize scenarioA) obsA40 (by with_unfolding_all decide) rfl⟩

/-- C5: every flagged record's reason string is the semicolon-joined list of
rule descriptions in the fixed rule order, built from exactly the predicates
that evaluated true for that observation — one description per fired rule, no
duplicates, none for a silent rule — it is non-empty, and the record comes
from an observation present after normalization. -/
theorem flag_reason_contract (obs : List Obs) (o : Obs) (h : o ∈ flagged obs) :
    o ∈ obs ∧
    flag_reason obs o ≠ "" ∧
    flag_reason obs o = String.intercalate "; "
      (reason_list (mRSI_flag obs o) (mRSI_team_flag obs o) (jh_flag obs o) (pni_flag obs o)) ∧
    (reason_list (mRSI_flag obs o) (mRSI_team_flag obs o) (jh_flag obs o) (pni_flag obs o)).Nodup ∧
    (MRSI_REASON ∈ reason_list (mRSI_flag obs o) (mRSI_team_flag obs o) (jh_flag obs o) (pni_flag obs o)
      ↔ mRSI_flag obs o = true) ∧
    (MRSI_TEAM_REASON ∈ reason_list (mRSI_flag obs o) (mRSI_team_flag obs o) (jh_flag obs o) (pni_flag obs o)
      ↔ mRSI_team_flag obs o = true) ∧
    (JH_REASON ∈ reason_list (mRSI_flag obs o) (mRSI_team_flag obs o) (jh_flag obs o) (pni_flag obs o)
      ↔ jh_flag obs o = true) ∧
    (PNI_REASON ∈ reason_list (mRSI_flag obs o) (mRSI_team_flag obs o) (jh_flag obs o) (pni_flag obs o)
      ↔ pni_flag obs o = true) := by
  rw [flagged, List.mem_filter] at h
  obtain ⟨ho, hf⟩ := h
  rw [any_flag] at hf
  obtain ⟨hnd, h1, h2, h3, h4, hne⟩ :=
    reason_list_facts (mRSI_flag obs o) (mRSI_team_flag obs o) (jh_flag obs o) (pni_flag obs o)
  exact ⟨ho, hne hf, rfl, hnd, h1, h2, h3, h4⟩

/-- Witness for C5: the flagged 0.40 observation of scenario A. -/
theorem flag_reason_contract_witness :
    obsA40 ∈ flagged (normalize scenarioA) ∧
    flag_reason (normalize scenarioA) obsA40 ≠ "" ∧
    obsA40 ∈ normalize scenarioA :=
  have k := flag_reason_contract (normalize scenarioA) obsA40 (by with_unfolding_all decide)
  ⟨by with_unfolding_all decide, k.2.1, k.1⟩

/-- C6: whenever the run completes, the flagged-record table has no two
identical rows and is sorted ascending by athlete name, then by date. -/
theorem output_rows_nodup_sorted (raw : List RawRecord) (out : RunOutput)
    (h : pipeline raw = Except.ok out) :
    out.rows.Nodup ∧ List.Sorted rowLE out.rows := by
  simp only [pipeline, run_normalized] at h
  split at h
  · exact absurd h (by simp)
  · injection h with h'
    subst h'
    refine ⟨?_, ?_⟩
    · exact ((List.perm_insertionSort rowLE _).nodup_iff).mpr (drop_duplicates_nodup _)
    · exact List.sorted_insertionSort rowLE _

/-- Witness for C6: the scenario A run and its one-row output. -/
theorem output_rows_nodup_sorted_witness :
    pipeline scenarioA = Except.ok outA ∧
    (outA.rows.Nodup ∧ List.Sorted rowLE outA.rows) :=
  ⟨by with_unfolding_all rfl,
   output_rows_nodup_sorted scenarioA outA (by with_unfolding_all rfl)⟩

/-- C8: a record whose value cell fails numeric parsing is dropped by
normalization, and it contributes to no personal baseline, no team reference,
and no output of the run (normalization is a total function: no exception is
modelled or needed). -/
theorem unparseable_value_dropped (l1 l2 : List RawRecord) (r : RawRecord)
    (h : to_numeric r.value = none) :
    normalize (l1 ++ r :: l2) = normalize (l1 ++ l2) ∧
    (∀ p m, baseline (normalize (l1 ++ r :: l2)) p m = baseline (normalize (l1 ++ l2)) p m) ∧
    team_avg_mRSI (normalize (l1 ++ r :: l2)) = team_avg_mRSI (normalize (l1 ++ l2)) ∧
    pipeline (l1 ++ r :: l2) = pipeline (l1 ++ l2) := by
  have hn : normalize (l1 ++ r :: l2) = normalize (l1 ++ l2) := by
    simp only [normalize, List.filterMap_append, List.filterMap_cons, h, Option.map_none']
  exact ⟨hn, fun p m => by rw [hn], by rw [hn], by simp only [pipeline, hn]⟩

/-- Witness for C8: scenario C, the "N/A" record inserted after a valid
record. -/
theorem unparseable_value_dropped_witness :
    to_numeric badRecord.value = none ∧
    normalize (quietInput ++ badRecord :: []) = normalize (quietInput ++ []) ∧
    pipeline (quietInput ++ badRecord :: []) = pipeline (quietInput ++ []) :=
  have k := unparseable_value_dropped quietInput [] badRecord rfl
  ⟨rfl, k.1, k.2.2.2⟩

/-- C10: an observation that is its athlete's only observation of its metric
has its own value as personal baseline (the median includes the observation
under evaluation), so for a non-negative value none of the three
personal-baseline drop rules fires on it. -/
theorem singleton_baseline_no_drop_flags (obs : List Obs) (o : Obs)
    (hsingle : athlete_metric_values obs o.playername o.metric = [o.value])
    (hpos : 0 ≤ o.value) :
    baseline obs o.playername o.metric = some o.value ∧
    mRSI_flag obs o = false ∧ jh_flag obs o = false ∧ pni_flag obs o = false := by
  have hb : baseline obs o.playername o.metric = some o.value := by
    rw [baseline, hsingle, median_singleton]
  refine ⟨hb, ?_, ?_, ?_⟩
  · by_cases hm : o.metric = METRIC_MRSI
    · have hb' : baseline obs o.playername METRIC_MRSI = some o.value := hm ▸ hb
      have hlt : ¬ o.value < (1 - MRSI_BASELINE_DROP_THRESHOLD) * o.value :=
        not_lt_one_sub_mul_self o.value _ hpos
          (by rw [MRSI_BASELINE_DROP_THRESHOLD]; norm_num)
      rw [mRSI_flag]
      by_cases hh : has_metric obs METRIC_MRSI = true
      · rw [if_pos hh, hb']
        simp [hm, hlt]
      · rw [if_neg hh]
    · rw [mRSI_flag]
      by_cases hh : has_metric obs METRIC_MRSI = true
      · rw [if_pos hh]
        simp [hm]
      · rw [if_neg hh]
  · by_cases hm : o.metric = METRIC_JH
    · have hb' : baseline obs o.playername METRIC_JH = some o.value := hm ▸ hb
      have hlt : ¬ o.value < (1 - JH_BASELINE_DROP_THRESHOLD) * o.value :=
        not_lt_one_sub_mul_self o.value _ hpos
          (by rw [JH_BASELINE_DROP_THRESHOLD]; norm_num)
      rw [jh_flag]
      by_cases hh : has_metric obs METRIC_JH = true
      · rw [if_pos hh, hb']
        simp [hm, hlt]
      · rw [if_neg hh]
    · rw [jh_flag]
      by_cases hh : has_metric obs METRIC_JH = true
      · rw [if_pos hh]
        simp [hm]
      · rw [if_neg hh]
  · by_cases hm : o.metric = METRIC_PNI
    · have hb' : baseline obs o.playername METRIC_PNI = some o.value := hm ▸ hb
      have hlt : ¬ o.value < (1 - PNI_BASELINE_DROP_THRESHOLD) * o.value :=
        not_lt_one_sub_mul_self o.value _ hpos
          (by rw [PNI_BASELINE_DROP_THRESHOLD]; norm_num)
      rw [pni_flag]
      by_cases hh : has_metric obs METRIC_PNI = true
      · rw [if_pos hh, hb']
        simp [hm, hlt]
      · rw [if_neg hh]
    · rw [pni_flag]
      by_cases hh : has_metric obs METRIC_PNI = true
      · rw [if_pos hh]
        simp [hm]
      · rw [if_neg hh]

/-- Witness for C10: a working set holding one observation. -/
theorem singleton_baseline_no_drop_flags_witness :
    athlete_metric_values [soloObs] soloObs.playername soloObs.metric = [soloObs.value] ∧
    (0 : ℚ) ≤ soloObs.value ∧
    (baseline [soloObs] soloObs.playername soloObs.metric = some soloObs.value ∧
     mRSI_flag [soloObs] soloObs = false ∧
     jh_flag [soloObs] soloObs = false ∧
     pni_flag [soloObs] soloObs = false) :=
  ⟨by with_unfolding_all decide, by with_unfolding_all decide,
   singleton_baseline_no_drop_flags [soloObs] soloObs
     (by with_unfolding_all decide) (by with_unfolding_all decide)⟩

end Part4
